import Mathlib

/-!
Shallow embedding of the oci-arm-provisioner core (Go) into Lean 4.

Modelled source files:
* `internal/provisioner/provisioner.go` — `Provisioner.RunCycle`,
  `AccountWorker.Provision`, `AccountWorker.checkExisting`;
* `internal/provisioner/verifier.go` — `AccountWorker.VerifyInstance`,
  `safeString`, `VerifiedInstance`;
* `internal/notifier/stats.go` — `Tracker` counters;
* `internal/config/config.go` — `AccountConfig`.

Modelling conventions:
* The OCI SDK clients are replaced by a record of response functions
  (`API`); `GetInstance` responses are additionally indexed by the poll
  number, which stands for the passage of time during the verification
  polling loop (one index per 10-second tick, 30 ticks for the 5-minute
  ceiling).
* Go `error` values returned by the SDK are the inductive `OCIError`:
  structured service errors carry an HTTP status and a message
  (`common.IsServiceError` succeeds on them), transport errors carry only
  a message.
* Go `float32` fields (OCPUs, memory) are modelled as `Rat`; the code
  only moves these values around and compares them for equality, never
  does arithmetic on them, so any type with decidable equality is a
  faithful image (NaN is not modelled).
* Every invocation of a client method is recorded in an `APICall` trace
  so that frame claims ("no launch request is made") are statable.
* Logging, notifications, sleeps and context cancellation are not
  modelled: they do not affect the returned values or the API trace of
  the functions under verification (cancellation only introduces extra
  early-return paths that none of the claims quantify over).
-/

namespace OCIProv

/-- `core.InstanceLifecycleState*` enumeration values used by the code. -/
inductive LifecycleState
  | moving
  | provisioning
  | running
  | starting
  | stopping
  | stopped
  | creatingImage
  | terminating
  | terminated
  deriving DecidableEq, Repr

/-- The string rendering `string(instance.LifecycleState)` used for
`VerifiedInstance.State` (the SDK constants are upper-case strings). -/
def LifecycleState.str : LifecycleState → String
  | .moving => "MOVING"
  | .provisioning => "PROVISIONING"
  | .running => "RUNNING"
  | .starting => "STARTING"
  | .stopping => "STOPPING"
  | .stopped => "STOPPED"
  | .creatingImage => "CREATING_IMAGE"
  | .terminating => "TERMINATING"
  | .terminated => "TERMINATED"

/-- `core.InstanceShapeConfig`: pointers modelled as `Option`. -/
structure InstanceShapeConfig where
  ocpus : Option Rat
  memoryInGBs : Option Rat
  deriving DecidableEq, Repr

/-- `core.Instance` restricted to the fields the code reads. -/
structure Instance where
  id : Option String
  displayName : Option String
  shape : Option String
  lifecycleState : LifecycleState
  shapeConfig : Option InstanceShapeConfig
  deriving DecidableEq, Repr

/-- `core.VnicAttachmentLifecycleState*` values. -/
inductive VnicAttachmentLifecycleState
  | attaching
  | attached
  | detaching
  | detached
  deriving DecidableEq, Repr

/-- `core.VnicAttachment` restricted to the fields the code reads. -/
structure VnicAttachment where
  vnicId : Option String
  lifecycleState : VnicAttachmentLifecycleState
  deriving DecidableEq, Repr

/-- `core.Vnic` restricted to the fields the code reads. -/
structure Vnic where
  publicIp : Option String
  privateIp : Option String
  deriving DecidableEq, Repr

/-- `identity.AvailabilityDomain`. The Go code dereferences `Name`
without a nil check (`*resp.Items[0].Name`), so the name is modelled as
a plain string. -/
structure AvailabilityDomain where
  name : String
  deriving DecidableEq, Repr

/-- A Go `error` coming back from an OCI SDK call.  `service` is a
structured `common.ServiceError` (HTTP status code plus message, as
returned by `GetHTTPStatusCode`/`GetMessage`); `transport` is any other
error, for which `common.IsServiceError` reports false. -/
inductive OCIError
  | service (httpStatus : Nat) (message : String)
  | transport (message : String)
  deriving DecidableEq, Repr

/-- The `Error()` rendering of an `OCIError`, used when the code wraps
an SDK error with `fmt.Errorf`. -/
def OCIError.render : OCIError → String
  | .service _ m => m
  | .transport m => m

/-- `fmt.Errorf(prefix+": %w", err)`, abstracted: wrapping produces a
fresh (non-nil) error whose text extends the wrapped error's text. -/
def wrapErr (pre : String) (e : OCIError) : OCIError :=
  .transport (pre ++ e.render)

/-- `config.AccountConfig`, restricted to the fields `Provision` and
`VerifyInstance` read (`float32` fields modelled as `Rat`). -/
structure AccountConfig where
  userOCID : String
  tenancyOCID : String
  region : String
  compartmentOCID : String
  availabilityDomain : String
  subnetOCID : String
  imageOCID : String
  sshPublicKey : String
  shape : String
  ocpus : Rat
  memoryGB : Rat
  bootVolumeSizeGB : Int
  displayName : String
  hostnameLabel : String
  deriving DecidableEq, Repr

/-- `core.LaunchInstanceDetails` as built by `Provision` (the fields it
actually populates, flattened). -/
structure LaunchInstanceDetails where
  availabilityDomain : String
  compartmentId : String
  displayName : String
  shape : String
  ocpus : Rat
  memoryInGBs : Rat
  imageId : String
  bootVolumeSizeInGBs : Int
  subnetId : String
  assignPublicIp : Bool
  hostnameLabel : String
  sshAuthorizedKeys : String
  deriving DecidableEq, Repr

/-- One recorded invocation of an OCI client method, with the request
data the code puts into it. -/
inductive APICall
  | listInstances (compartmentId : String) (displayName : String)
  | listAvailabilityDomains (compartmentId : String)
  | launchInstance (details : LaunchInstanceDetails)
  | getInstance (instanceId : String)
  | listVnicAttachments (compartmentId : String) (instanceId : String)
  | getVnic (vnicId : String)
  deriving DecidableEq, Repr

/-- The OCI clients (`ComputeClientOps`, `IdentityClientOps`,
`VirtualNetworkClientOps`), modelled as response functions.
`getInstance` takes the poll index first: the k-th `GetInstance` poll of
a verification run observes `getInstance k id`. -/
structure API where
  listInstances : String → String → Except OCIError (List Instance)
  listAvailabilityDomains : String → Except OCIError (List AvailabilityDomain)
  launchInstance : LaunchInstanceDetails → Except OCIError Instance
  getInstance : Nat → String → Except OCIError Instance
  listVnicAttachments : String → String → Except OCIError (List VnicAttachment)
  getVnic : String → Except OCIError Vnic

/-- `notifier.Tracker` counters (`stats.go`); the mutex and the
timestamps are not modelled. -/
structure Tracker where
  totalCycles : Nat
  capacityErrors : Nat
  otherErrors : Nat
  successCount : Nat
  deriving DecidableEq, Repr

/-- `Tracker.IncCycle`. -/
def Tracker.incCycle (t : Tracker) : Tracker :=
  { t with totalCycles := t.totalCycles + 1 }

/-- `Tracker.IncCapacity`. -/
def Tracker.incCapacity (t : Tracker) : Tracker :=
  { t with capacityErrors := t.capacityErrors + 1 }

/-- `Tracker.IncError`. -/
def Tracker.incError (t : Tracker) : Tracker :=
  { t with otherErrors := t.otherErrors + 1 }

/-- `Tracker.IncSuccess`. -/
def Tracker.incSuccess (t : Tracker) : Tracker :=
  { t with successCount := t.successCount + 1 }

/-- Substring occurrence on character lists: `pat` occurs in `s` iff it
is a prefix of some suffix of `s` (kernel-reducible helper for
`strContains`). -/
def containsSub (pat : List Char) : List Char → Bool
  | [] => pat.isEmpty
  | c :: rest => pat.isPrefixOf (c :: rest) || containsSub pat rest

/-- `strings.Contains`. -/
def strContains (s pat : String) : Bool :=
  containsSub pat.data s.data

/-- `strings.ToLower` (ASCII case mapping, like `String.toLower`, but
written structurally so the kernel can evaluate it). -/
def strToLower (s : String) : String :=
  ⟨s.data.map Char.toLower⟩

/-- `safeString` from `verifier.go`: dereference an optional string,
empty when nil. -/
def safeString : Option String → String
  | none => ""
  | some s => s

/-- The states `checkExisting` treats as "instance exists": running,
provisioning or starting. -/
def isActiveState (s : LifecycleState) : Bool :=
  s = .running || s = .provisioning || s = .starting

/-- `AccountWorker.checkExisting`: list instances filtered by
compartment and display name; report true iff some returned instance is
in an active state. (The Go loop returns on the first active item;
`List.any` is the same boolean.) -/
def checkExisting (cfg : AccountConfig) (api : API) : Except OCIError Bool :=
  match api.listInstances cfg.compartmentOCID cfg.displayName with
  | .error e => .error e
  | .ok items => .ok (items.any fun i => isActiveState i.lifecycleState)

/-- `provisioner.VerifiedInstance` (`verifier.go`); `float32` fields as
`Rat`. -/
structure VerifiedInstance where
  instanceID : String
  displayName : String
  publicIP : String
  privateIP : String
  state : String
  shape : String
  ocpus : Rat
  memoryGB : Rat
  region : String
  verified : Bool
  specsMismatch : Bool
  errors : List String
  deriving DecidableEq, Repr

/-- The `result` value as initialised at the top of `VerifyInstance`
(Go zero values for the unset fields). -/
def initResult (cfg : AccountConfig) (instanceID : String) : VerifiedInstance :=
  { instanceID := instanceID
    displayName := ""
    publicIP := ""
    privateIP := ""
    state := ""
    shape := ""
    ocpus := 0
    memoryGB := 0
    region := cfg.region
    verified := false
    specsMismatch := false
    errors := [] }

/-- Message appended when a `GetInstance` poll fails
(`fmt.Sprintf("GetInstance failed: %v", err)`). -/
def getInstanceFailedMsg (e : OCIError) : String :=
  "GetInstance failed: " ++ e.render

/-- Message appended when `ListVnicAttachments` fails. -/
def listVnicFailedMsg (e : OCIError) : String :=
  "ListVnicAttachments failed: " ++ e.render

/-- Message appended when `GetVnic` fails. -/
def getVnicFailedMsg (e : OCIError) : String :=
  "GetVnic failed: " ++ e.render

/-- OCPUs discrepancy message (`%.1f` float rendering abstracted to the
exact rational rendering). -/
def cpuMismatchMsg (requested got : Rat) : String :=
  "OCPUs mismatch: requested " ++ toString requested ++ ", got " ++ toString got

/-- Memory discrepancy message. -/
def memMismatchMsg (requested got : Rat) : String :=
  "Memory mismatch: requested " ++ toString requested ++ "GB, got " ++ toString got ++ "GB"

/-- The error returned when polling sees a terminated/terminating state. -/
def terminatedErrText : String := "instance terminated unexpectedly"

/-- The error returned when the polling ceiling elapses
(`fmt.Errorf("verification timeout: instance not running after %v", maxWait)`). -/
def timeoutErrText : String := "verification timeout: instance not running after 5m0s"

/-- Number of `GetInstance` polls that fit under the 5-minute ceiling at
one poll per 10-second tick (`maxWait / pollInterval`): the Go loop runs
`for time.Now().Before(deadline)` with a 10s sleep at the end of every
non-final iteration, so polls happen at ticks 0..29. -/
def maxPolls : Nat := 30

/-- Result of the polling loop in `VerifyInstance`. -/
inductive PollOutcome
  | reachedRunning (inst : Instance) (result : VerifiedInstance)
  | terminatedAbort (result : VerifiedInstance)
  | timedOut (last : Option Instance) (result : VerifiedInstance)
  deriving DecidableEq, Repr

/-- The polling loop of `VerifyInstance` (step 1): poll `GetInstance`
until the instance is running, a terminated/terminating state is seen,
or the ceiling (`fuel`, counting remaining 10-second ticks) elapses.
`k` is the index of the next poll, `last` the Go `instance` variable
(last successfully fetched instance), `result` the accumulator.  Also
returns the `GetInstance` calls issued. -/
def pollInstance (api : API) (instanceID : String) :
    Nat → Nat → Option Instance → VerifiedInstance → PollOutcome × List APICall
  | 0, _, last, result => (.timedOut last result, [])
  | fuel + 1, k, last, result =>
    match api.getInstance k instanceID with
    | .error e =>
      let p := pollInstance api instanceID fuel (k + 1) last
        { result with errors := result.errors ++ [getInstanceFailedMsg e] }
      (p.1, .getInstance instanceID :: p.2)
    | .ok inst =>
      let result := { result with
        state := inst.lifecycleState.str
        displayName := safeString inst.displayName
        shape := safeString inst.shape }
      if inst.lifecycleState = .running then
        (.reachedRunning inst result, [.getInstance instanceID])
      else if inst.lifecycleState = .terminated ∨ inst.lifecycleState = .terminating then
        (.terminatedAbort { result with errors := result.errors ++ ["Instance was terminated"] },
          [.getInstance instanceID])
      else
        let p := pollInstance api instanceID fuel (k + 1) (some inst) result
        (p.1, .getInstance instanceID :: p.2)

/-- The VNIC loop of `VerifyInstance` (step 3, inner `for`): walk the
attachments, take the first one with a non-nil id in the attached state,
fetch its VNIC for the addresses; a `GetVnic` failure is recorded and
the loop continues; success breaks. -/
def vnicLookup (api : API) : List VnicAttachment → VerifiedInstance →
    VerifiedInstance × List APICall
  | [], result => (result, [])
  | att :: rest, result =>
    match att.vnicId with
    | some vid =>
      if att.lifecycleState = .attached then
        match api.getVnic vid with
        | .error e =>
          let p := vnicLookup api rest
            { result with errors := result.errors ++ [getVnicFailedMsg e] }
          (p.1, .getVnic vid :: p.2)
        | .ok vnic =>
          ({ result with
              publicIP := (match vnic.publicIp with | some p => p | none => result.publicIP)
              privateIP := (match vnic.privateIp with | some p => p | none => result.privateIP) },
            [.getVnic vid])
      else vnicLookup api rest result
    | none => vnicLookup api rest result

/-- The boolean assigned to `result.Verified` at the end of a completed
verification:
`len(Errors) == 0 || (len(Errors) > 0 && !SpecsMismatch && State == "RUNNING")`. -/
def verifiedFlag (r : VerifiedInstance) : Bool :=
  r.errors.length = 0 || (decide (0 < r.errors.length) && !r.specsMismatch && r.state = "RUNNING")

/-- The final assignment `result.Verified = ...` of `VerifyInstance`. -/
def setVerified (r : VerifiedInstance) : VerifiedInstance :=
  { r with verified := verifiedFlag r }

/-- Steps 2–3 of `VerifyInstance` once the instance is running: copy the
observed shape configuration, record CPU/memory discrepancies, retrieve
the addresses via the VNIC attachments, and set the final verified
flag. -/
def finishVerification (cfg : AccountConfig) (api : API) (instanceID : String)
    (inst : Instance) (result : VerifiedInstance) : VerifiedInstance × List APICall :=
  let result := match inst.shapeConfig with
    | none => result
    | some sc =>
      let result := match sc.ocpus with
        | some o => { result with ocpus := o }
        | none => result
      match sc.memoryInGBs with
      | some m => { result with memoryGB := m }
      | none => result
  let result := if result.ocpus ≠ cfg.ocpus then
      { result with
          specsMismatch := true,
          errors := result.errors ++ [cpuMismatchMsg cfg.ocpus result.ocpus] }
    else result
  let result := if result.memoryGB ≠ cfg.memoryGB then
      { result with
          specsMismatch := true,
          errors := result.errors ++ [memMismatchMsg cfg.memoryGB result.memoryGB] }
    else result
  let vnicCall := APICall.listVnicAttachments cfg.compartmentOCID instanceID
  let p : VerifiedInstance × List APICall :=
    match api.listVnicAttachments cfg.compartmentOCID instanceID with
    | .error e =>
      ({ result with errors := result.errors ++ [listVnicFailedMsg e] }, [vnicCall])
    | .ok atts =>
      let q := vnicLookup api atts result
      (q.1, vnicCall :: q.2)
  (setVerified p.1, p.2)

/-- Return value of `VerifyInstance`: the `VerifiedInstance`, the Go
error (`none` = nil), and the API calls issued.  The only Go path that
returns a nil `VerifiedInstance` is context cancellation, which is not
modelled; every modelled path returns a (possibly partial) result. -/
structure VerifyOutput where
  result : VerifiedInstance
  err : Option String
  calls : List APICall
  deriving DecidableEq, Repr

/-- `AccountWorker.VerifyInstance` (`verifier.go`): poll for a running
state, then verify specs and retrieve addresses; on a
terminated/terminating observation abort with an error; on ceiling
expiry return the partial result with a timeout error. -/
def VerifyInstance (cfg : AccountConfig) (api : API) (instanceID : String) : VerifyOutput :=
  match pollInstance api instanceID maxPolls 0 none (initResult cfg instanceID) with
  | (.terminatedAbort result, tr) =>
    { result := result, err := some terminatedErrText, calls := tr }
  | (.timedOut _ result, tr) =>
    { result := { result with errors := result.errors ++ ["Timeout waiting for RUNNING state"] }
      err := some timeoutErrText
      calls := tr }
  | (.reachedRunning inst result, tr) =>
    let p := finishVerification cfg api instanceID inst result
    { result := p.1, err := none, calls := tr ++ p.2 }

/-- Return value of `AccountWorker.Provision`: the `(success, retryable,
error)` tuple, the updated `Tracker`, and the API calls issued. -/
structure ProvisionResult where
  success : Bool
  retryable : Bool
  err : Option OCIError
  tracker : Tracker
  calls : List APICall
  deriving Repr

/-- The `core.LaunchInstanceDetails` request `Provision` builds for a
resolved availability domain `ad`. -/
def launchDetails (cfg : AccountConfig) (ad : String) : LaunchInstanceDetails :=
  { availabilityDomain := ad
    compartmentId := cfg.compartmentOCID
    displayName := cfg.displayName
    shape := cfg.shape
    ocpus := cfg.ocpus
    memoryInGBs := cfg.memoryGB
    imageId := cfg.imageOCID
    bootVolumeSizeInGBs := cfg.bootVolumeSizeGB
    subnetId := cfg.subnetOCID
    assignPublicIp := true
    hostnameLabel := cfg.hostnameLabel
    sshAuthorizedKeys := cfg.sshPublicKey }

/-- The capacity/limit test on a launch service error:
`code == 500 || strings.Contains(msg, "capacity") || strings.Contains(msg, "limit")`
where `msg = strings.ToLower(serviceErr.GetMessage())`. -/
def isCapacityError (code : Nat) (message : String) : Bool :=
  code = 500 || strContains (strToLower message) "capacity" ||
    strContains (strToLower message) "limit"

/-- `AccountWorker.Provision` (`provisioner.go`): existence check, zone
resolution ("auto" picks the first listed availability domain), launch,
error classification, and — on launch success — verification (whose
error is logged and dropped) followed by the success bookkeeping.
Client initialisation (`initClients`) is not modelled: the clients are
the given `api`. Go dereferences `resp.Instance.Id` without a nil
check; the model reads it with `safeString`. -/
def Provision (cfg : AccountConfig) (api : API) (tracker : Tracker) : ProvisionResult :=
  let listCall := APICall.listInstances cfg.compartmentOCID cfg.displayName
  match checkExisting cfg api with
  | .error e => { success := false, retryable := false, err := some e,
                  tracker := tracker, calls := [listCall] }
  | .ok true => { success := true, retryable := false, err := none,
                  tracker := tracker, calls := [listCall] }
  | .ok false =>
    let adResolved : Except OCIError String × List APICall :=
      if cfg.availabilityDomain = "auto" then
        let adCall := APICall.listAvailabilityDomains cfg.tenancyOCID
        match api.listAvailabilityDomains cfg.tenancyOCID with
        | .error e => (.error (wrapErr "failed to list ADs: " e), [adCall])
        | .ok [] => (.error (.transport "no ADs found"), [adCall])
        | .ok (z :: _) => (.ok z.name, [adCall])
      else (.ok cfg.availabilityDomain, [])
    match adResolved with
    | (.error e, tr1) =>
      { success := false, retryable := false, err := some e,
        tracker := tracker, calls := listCall :: tr1 }
    | (.ok ad, tr1) =>
      let details := launchDetails cfg ad
      let launchCall := APICall.launchInstance details
      match api.launchInstance details with
      | .error e =>
        match e with
        | .service code msg =>
          if isCapacityError code msg then
            { success := false, retryable := true, err := none,
              tracker := tracker.incCapacity, calls := listCall :: tr1 ++ [launchCall] }
          else if code = 429 then
            { success := false, retryable := true, err := none,
              tracker := tracker.incError, calls := listCall :: tr1 ++ [launchCall] }
          else
            { success := false, retryable := false, err := some e,
              tracker := tracker.incError, calls := listCall :: tr1 ++ [launchCall] }
        | .transport m =>
          { success := false, retryable := false, err := some (.transport m),
            tracker := tracker.incError, calls := listCall :: tr1 ++ [launchCall] }
      | .ok inst =>
        let instanceID := safeString inst.id
        let verify := VerifyInstance cfg api instanceID
        { success := true, retryable := false, err := none,
          tracker := tracker.incSuccess,
          calls := listCall :: tr1 ++ [launchCall] ++ verify.calls }

/-- One `AccountWorker` as seen by `RunCycle`: the account alias, its
configuration, and its (already initialised) clients. -/
structure Worker where
  accountName : String
  cfg : AccountConfig
  api : API

/-- Return value of `RunCycle`: the updated `Provisioned` set (as the
list of aliases for which membership is tested with `contains`), the
updated `Tracker`, and the API calls issued, each tagged with the alias
of the account that issued it. -/
structure CycleResult where
  provisioned : List String
  tracker : Tracker
  trace : List (String × APICall)

/-- The per-account loop body of `RunCycle`: skip aliases already in the
provisioned set; otherwise run `Provision`, drop (log) its error, and on
success add the alias to the set. -/
def runCycleAux : List Worker → List String → Tracker → List (String × APICall) → CycleResult
  | [], provisioned, tracker, trace => ⟨provisioned, tracker, trace⟩
  | w :: rest, provisioned, tracker, trace =>
    if provisioned.contains w.accountName then
      runCycleAux rest provisioned tracker trace
    else
      let r := Provision w.cfg w.api tracker
      let provisioned := if r.success then provisioned ++ [w.accountName] else provisioned
      runCycleAux rest provisioned r.tracker
        (trace ++ r.calls.map fun c => (w.accountName, c))

/-- `Provisioner.RunCycle` (`provisioner.go`): bump the cycle counter,
then walk the workers in order.  The inter-account sleep and the
cancellation checks are not modelled (they only cut the loop short on
cancellation); `RunCycle` has no error return in Go and is a total
function here. -/
def RunCycle (workers : List Worker) (provisioned : List String) (tracker : Tracker) :
    CycleResult :=
  runCycleAux workers provisioned tracker.incCycle []

/-- The guard of the polling loop on one `GetInstance` response: the Go
loop polls again after an errored poll, or after observing an instance
that is neither running nor terminated/terminating. -/
def continuesPolling : Except OCIError Instance → Bool
  | .error _ => true
  | .ok i => !(i.lifecycleState = .running || i.lifecycleState = .terminated ||
      i.lifecycleState = .terminating)

/-- Concrete account configuration mirroring the Go test fixtures
(`provisioner_test.go`): 4 OCPUs, 24 GB, fixed availability domain. -/
def cfgStd : AccountConfig :=
  { userOCID := "user-1"
    tenancyOCID := "tenancy-1"
    region := "us-ashburn-1"
    compartmentOCID := "comp-1"
    availabilityDomain := "AD-1"
    subnetOCID := "subnet-1"
    imageOCID := "image-1"
    sshPublicKey := "ssh-ed25519 AAA"
    shape := "VM.Standard.A1.Flex"
    ocpus := 4
    memoryGB := 24
    bootVolumeSizeGB := 50
    displayName := "oci-arm"
    hostnameLabel := "ociarm" }

/-- `cfgStd` with the "auto" availability-domain sentinel. -/
def cfgAuto : AccountConfig := { cfgStd with availabilityDomain := "auto" }

/-- A running instance whose shape matches `cfgStd` (test fixture). -/
def instRunning : Instance :=
  { id := some "inst-1"
    displayName := some "oci-arm"
    shape := some "VM.Standard.A1.Flex"
    lifecycleState := .running
    shapeConfig := some { ocpus := some 4, memoryInGBs := some 24 } }

/-- A provisioning-state instance (test fixture). -/
def instProvisioning : Instance := { instRunning with lifecycleState := .provisioning }

/-- A terminated instance (test fixture). -/
def instTerminated : Instance := { instRunning with lifecycleState := .terminated }

/-- A running instance with 2 OCPUs instead of the 4 requested by
`cfgStd` (test fixture for the specs-mismatch scenarios). -/
def instMismatch : Instance :=
  { instRunning with shapeConfig := some { ocpus := some 2, memoryInGBs := some 24 } }

/-- Baseline mocked clients (test fixture): no existing instances, two
availability domains, launch and polls succeed with `instRunning`, no
VNIC attachments. -/
def apiBase : API :=
  { listInstances := fun _ _ => .ok []
    listAvailabilityDomains := fun _ => .ok [⟨"AD-A"⟩, ⟨"AD-B"⟩]
    launchInstance := fun _ => .ok instRunning
    getInstance := fun _ _ => .ok instRunning
    listVnicAttachments := fun _ _ => .ok []
    getVnic := fun _ => .ok { publicIp := some "203.0.113.42", privateIp := some "10.0.0.1" } }

/-- `apiBase` with a failing launch (test fixture). -/
def apiLaunchErr (e : OCIError) : API :=
  { apiBase with launchInstance := fun _ => .error e }

/-- `apiBase` reporting one running instance on the existence check
(test fixture). -/
def apiExisting : API :=
  { apiBase with listInstances := fun _ _ => .ok [instRunning] }

/-- `apiBase` whose polls report a running instance with mismatched
OCPUs (test fixture). -/
def apiMismatch : API :=
  { apiBase with getInstance := fun _ _ => .ok instMismatch }

/-- `apiBase` whose polls never leave the provisioning state (test
fixture for the timeout scenario). -/
def apiStuck : API :=
  { apiBase with getInstance := fun _ _ => .ok instProvisioning }

/-- `apiBase` whose polls report a provisioning instance for the first
15 ticks and then fail with a transport error for the rest (test
fixture for the timeout-with-errored-polls scenario). -/
def apiFlaky : API :=
  { apiBase with getInstance := fun k _ =>
      if k < 15 then .ok instProvisioning else .error (.transport "connection reset") }

/-- `apiBase` whose polls report provisioning three times and then a
terminated instance (test fixture for the termination-abort scenario). -/
def apiTermAt3 : API :=
  { apiBase with getInstance := fun k _ =>
      if k < 3 then .ok instProvisioning else .ok instTerminated }

/-- A fresh tracker (all counters zero). -/
def trk0 : Tracker := ⟨0, 0, 0, 0⟩

/-- Test-fixture workers for the cycle scenarios. -/
def workerA : Worker := ⟨"acct1", cfgStd, apiExisting⟩

/-- Second fixture worker: its launch fails hard (status 400). -/
def workerB : Worker := ⟨"acct2", cfgStd, apiLaunchErr (.service 400 "Invalid image")⟩

/-- Third fixture worker. -/
def workerC : Worker := ⟨"acct3", cfgStd, apiExisting⟩

/-- A stopped instance (test fixture). -/
def instStopped : Instance := { instRunning with lifecycleState := .stopped }

/-- `apiBase` reporting only inactive (stopped/terminated) instances on
the existence check (test fixture). -/
def apiInactive : API :=
  { apiBase with listInstances := fun _ _ => .ok [instStopped, instTerminated] }

theorem checkExisting_eq_false (cfg : AccountConfig) (api : API) (l : List Instance)
    (hList : api.listInstances cfg.compartmentOCID cfg.displayName = .ok l)
    (hNoActive : ∀ i ∈ l, isActiveState i.lifecycleState = false) :
    checkExisting cfg api = .ok false := by
  unfold checkExisting
  rw [hList]
  simp only [Except.ok.injEq, List.any_eq_false]
  intro i hi
  simp [hNoActive i hi]

theorem checkExisting_eq_true (cfg : AccountConfig) (api : API) (l : List Instance)
    (hList : api.listInstances cfg.compartmentOCID cfg.displayName = .ok l)
    (hActive : ∃ i ∈ l, isActiveState i.lifecycleState = true) :
    checkExisting cfg api = .ok true := by
  unfold checkExisting
  rw [hList]
  simp only [Except.ok.injEq, List.any_eq_true]
  obtain ⟨i, hi, hact⟩ := hActive
  exact ⟨i, hi, hact⟩

/-- C1: classification of launch errors. With no existing active
instance and a fixed availability domain, a launch failure is classified
by `Provision` exactly as the spec's taxonomy table says, in the table's
order: a structured service error with status 500 or a message
containing "capacity" or "limit" (case-insensitively) yields
`(false, true, nil)` and bumps only the capacity counter; otherwise a
structured 429 yields `(false, true, nil)` and bumps only the generic
error counter; any other structured service error, and any transport
error, yields `(false, false, err≠nil)` and bumps only the generic
error counter. -/
theorem provision_launch_error_taxonomy
    (cfg : AccountConfig) (api : API) (tracker : Tracker) (e : OCIError) (l : List Instance)
    (hList : api.listInstances cfg.compartmentOCID cfg.displayName = .ok l)
    (hNoActive : ∀ i ∈ l, isActiveState i.lifecycleState = false)
    (hAD : cfg.availabilityDomain ≠ "auto")
    (hLaunch : ∀ d, api.launchInstance d = .error e) :
    (Provision cfg api tracker).success = false ∧
    (∀ code msg, e = .service code msg → isCapacityError code msg = true →
      (Provision cfg api tracker).retryable = true ∧
      (Provision cfg api tracker).err = none ∧
      (Provision cfg api tracker).tracker = tracker.incCapacity) ∧
    (∀ code msg, e = .service code msg → isCapacityError code msg = false → code = 429 →
      (Provision cfg api tracker).retryable = true ∧
      (Provision cfg api tracker).err = none ∧
      (Provision cfg api tracker).tracker = tracker.incError) ∧
    (∀ code msg, e = .service code msg → isCapacityError code msg = false → code ≠ 429 →
      (Provision cfg api tracker).retryable = false ∧
      (Provision cfg api tracker).err = some e ∧
      (Provision cfg api tracker).tracker = tracker.incError) ∧
    (∀ msg, e = .transport msg →
      (Provision cfg api tracker).retryable = false ∧
      (Provision cfg api tracker).err = some e ∧
      (Provision cfg api tracker).tracker = tracker.incError) := by
  have hEx := checkExisting_eq_false cfg api l hList hNoActive
  refine ⟨?_, ?_, ?_, ?_, ?_⟩
  · cases e with
    | service code msg =>
      by_cases hcap : isCapacityError code msg = true
      · simp [Provision, hEx, hAD, hLaunch, hcap]
      · by_cases h429 : code = 429
        · subst h429
          simp [Provision, hEx, hAD, hLaunch, hcap]
        · simp [Provision, hEx, hAD, hLaunch, hcap, h429]
    | transport msg => simp [Provision, hEx, hAD, hLaunch]
  · rintro code msg rfl hcap
    simp [Provision, hEx, hAD, hLaunch, hcap]
  · rintro code msg rfl hcap rfl
    simp [Provision, hEx, hAD, hLaunch, hcap]
  · rintro code msg rfl hcap h429
    simp [Provision, hEx, hAD, hLaunch, hcap, h429]
  · rintro msg rfl
    simp [Provision, hEx, hAD, hLaunch]

/-- Witness for C1 at the three concrete errors of the spec's
capacity-classification test (500 "Out of host capacity", 429, and
400 "Invalid image"). -/
theorem provision_launch_error_taxonomy_witness :
    ((Provision cfgStd (apiLaunchErr (.service 500 "Out of host capacity")) trk0).success = false ∧
     (Provision cfgStd (apiLaunchErr (.service 500 "Out of host capacity")) trk0).retryable = true ∧
     (Provision cfgStd (apiLaunchErr (.service 500 "Out of host capacity")) trk0).err = none ∧
     (Provision cfgStd (apiLaunchErr (.service 500 "Out of host capacity")) trk0).tracker =
       trk0.incCapacity) ∧
    ((Provision cfgStd (apiLaunchErr (.service 429 "TooManyRequests")) trk0).retryable = true ∧
     (Provision cfgStd (apiLaunchErr (.service 429 "TooManyRequests")) trk0).err = none ∧
     (Provision cfgStd (apiLaunchErr (.service 429 "TooManyRequests")) trk0).tracker =
       trk0.incError) ∧
    ((Provision cfgStd (apiLaunchErr (.service 400 "Invalid image")) trk0).success = false ∧
     (Provision cfgStd (apiLaunchErr (.service 400 "Invalid image")) trk0).retryable = false ∧
     (Provision cfgStd (apiLaunchErr (.service 400 "Invalid image")) trk0).err =
       some (.service 400 "Invalid image") ∧
     (Provision cfgStd (apiLaunchErr (.service 400 "Invalid image")) trk0).tracker =
       trk0.incError) := by
  have h500 := provision_launch_error_taxonomy cfgStd
    (apiLaunchErr (.service 500 "Out of host capacity")) trk0
    (.service 500 "Out of host capacity") [] rfl (by simp) (by decide) (fun d => rfl)
  have h429 := provision_launch_error_taxonomy cfgStd
    (apiLaunchErr (.service 429 "TooManyRequests")) trk0
    (.service 429 "TooManyRequests") [] rfl (by simp) (by decide) (fun d => rfl)
  have h400 := provision_launch_error_taxonomy cfgStd
    (apiLaunchErr (.service 400 "Invalid image")) trk0
    (.service 400 "Invalid image") [] rfl (by simp) (by decide) (fun d => rfl)
  obtain ⟨hs1, hcap1, -, -, -⟩ := h500
  obtain ⟨-, -, hrate2, -, -⟩ := h429
  obtain ⟨hs3, -, -, hother3, -⟩ := h400
  obtain ⟨ha, hb, hc⟩ := hcap1 500 "Out of host capacity" rfl (by decide)
  obtain ⟨hd, he, hf⟩ := hrate2 429 "TooManyRequests" rfl (by decide) rfl
  obtain ⟨hg, hh, hi⟩ := hother3 400 "Invalid image" rfl (by decide) (by decide)
  exact ⟨⟨hs1, ha, hb, hc⟩, ⟨hd, he, hf⟩, ⟨hs3, hg, hh, hi⟩⟩

/-- C2: the existence check short-circuits `Provision`. If the filtered
instance list contains an instance in a running, provisioning or
starting state, `Provision` returns `(true, false, nil)` having issued
only the one `ListInstances` call — in particular no `LaunchInstance`
request — and a second `Provision` call right after a successful first
one, with the API reporting the instance as running, again returns
success with no launch request. -/
theorem provision_existing_short_circuit
    (cfg : AccountConfig) (api : API) (tracker : Tracker) (l : List Instance)
    (hList : api.listInstances cfg.compartmentOCID cfg.displayName = .ok l)
    (hActive : ∃ i ∈ l, isActiveState i.lifecycleState = true) :
    (Provision cfg api tracker).success = true ∧
    (Provision cfg api tracker).retryable = false ∧
    (Provision cfg api tracker).err = none ∧
    (Provision cfg api tracker).calls =
      [APICall.listInstances cfg.compartmentOCID cfg.displayName] ∧
    (∀ d, APICall.launchInstance d ∉ (Provision cfg api tracker).calls) ∧
    (∀ (apiFirst : API) (t1 : Tracker), (Provision cfg apiFirst t1).success = true →
      (Provision cfg api (Provision cfg apiFirst t1).tracker).success = true ∧
      (∀ d, APICall.launchInstance d ∉
        (Provision cfg api (Provision cfg apiFirst t1).tracker).calls)) := by
  have hEx := checkExisting_eq_true cfg api l hList hActive
  have hmain : ∀ t : Tracker, (Provision cfg api t).success = true ∧
      (Provision cfg api t).retryable = false ∧
      (Provision cfg api t).err = none ∧
      (Provision cfg api t).calls =
        [APICall.listInstances cfg.compartmentOCID cfg.displayName] := by
    intro t
    simp [Provision, hEx]
  obtain ⟨h1, h2, h3, h4⟩ := hmain tracker
  refine ⟨h1, h2, h3, h4, ?_, ?_⟩
  · intro d hd
    rw [h4] at hd
    simp at hd
  · intro apiFirst t1 _
    obtain ⟨g1, -, -, g4⟩ := hmain (Provision cfg apiFirst t1).tracker
    refine ⟨g1, ?_⟩
    intro d hd
    rw [g4] at hd
    simp at hd

/-- Witness for C2: the API reports a running instance with the
configured display name; `Provision` succeeds without a launch, twice in
a row. -/
theorem provision_existing_short_circuit_witness :
    (Provision cfgStd apiExisting trk0).success = true ∧
    (Provision cfgStd apiExisting trk0).retryable = false ∧
    (Provision cfgStd apiExisting trk0).err = none ∧
    (Provision cfgStd apiExisting trk0).calls =
      [APICall.listInstances cfgStd.compartmentOCID cfgStd.displayName] ∧
    (∀ d, APICall.launchInstance d ∉ (Provision cfgStd apiExisting trk0).calls) ∧
    (∀ (apiFirst : API) (t1 : Tracker), (Provision cfgStd apiFirst t1).success = true →
      (Provision cfgStd apiExisting (Provision cfgStd apiFirst t1).tracker).success = true ∧
      (∀ d, APICall.launchInstance d ∉
        (Provision cfgStd apiExisting (Provision cfgStd apiFirst t1).tracker).calls)) :=
  provision_existing_short_circuit cfgStd apiExisting trk0 [instRunning] rfl
    ⟨instRunning, by simp, by decide⟩

theorem pollInstance_calls_get (api : API) (id : String) :
    ∀ (fuel k : Nat) (last : Option Instance) (result : VerifiedInstance),
    ∀ c ∈ (pollInstance api id fuel k last result).2, c = APICall.getInstance id := by
  intro fuel
  induction fuel with
  | zero =>
    intro k last result c hc
    simp [pollInstance] at hc
  | succ n ih =>
    intro k last result c hc
    rw [pollInstance] at hc
    cases hg : api.getInstance k id with
    | error e =>
      simp only [hg] at hc
      rcases List.mem_cons.1 hc with rfl | hc2
      · rfl
      · exact ih (k + 1) last _ c hc2
    | ok inst =>
      simp only [hg] at hc
      by_cases hr : inst.lifecycleState = LifecycleState.running
      · rw [if_pos hr] at hc
        simp at hc
        exact hc
      · rw [if_neg hr] at hc
        by_cases ht : inst.lifecycleState = LifecycleState.terminated ∨
            inst.lifecycleState = LifecycleState.terminating
        · rw [if_pos ht] at hc
          simp at hc
          exact hc
        · rw [if_neg ht] at hc
          simp only at hc
          rcases List.mem_cons.1 hc with rfl | hc2
          · rfl
          · exact ih (k + 1) (some inst) _ c hc2

theorem vnicLookup_calls_getVnic (api : API) :
    ∀ (atts : List VnicAttachment) (r : VerifiedInstance),
    ∀ c ∈ (vnicLookup api atts r).2, ∃ v, c = APICall.getVnic v := by
  intro atts
  induction atts with
  | nil =>
    intro r c hc
    simp [vnicLookup] at hc
  | cons att rest ih =>
    intro r c hc
    rw [vnicLookup] at hc
    cases hv : att.vnicId with
    | none =>
      simp only [hv] at hc
      exact ih r c hc
    | some vid =>
      simp only [hv] at hc
      by_cases ha : att.lifecycleState = VnicAttachmentLifecycleState.attached
      · rw [if_pos ha] at hc
        cases hg : api.getVnic vid with
        | error e =>
          simp only [hg] at hc
          rcases List.mem_cons.1 hc with rfl | hc2
          · exact ⟨vid, rfl⟩
          · exact ih _ c hc2
        | ok vnic =>
          simp only [hg] at hc
          simp at hc
          exact ⟨vid, hc⟩
      · rw [if_neg ha] at hc
        exact ih r c hc

theorem finishVerification_no_launch (cfg : AccountConfig) (api : API) (id : String)
    (inst : Instance) (r : VerifiedInstance) (d : LaunchInstanceDetails) :
    APICall.launchInstance d ∉ (finishVerification cfg api id inst r).2 := by
  intro hc
  unfold finishVerification at hc
  cases hv : api.listVnicAttachments cfg.compartmentOCID id with
  | error e =>
    simp only [hv] at hc
    simp at hc
  | ok atts =>
    simp only [hv] at hc
    rcases List.mem_cons.1 hc with hc2 | hc2
    · exact absurd hc2 (by simp)
    · obtain ⟨v, hv2⟩ := vnicLookup_calls_getVnic api atts _ _ hc2
      exact absurd hv2 (by simp)

theorem verifyInstance_no_launch (cfg : AccountConfig) (api : API) (id : String)
    (d : LaunchInstanceDetails) :
    APICall.launchInstance d ∉ (VerifyInstance cfg api id).calls := by
  intro hc
  unfold VerifyInstance at hc
  rcases hp : pollInstance api id maxPolls 0 none (initResult cfg id) with ⟨o, tr⟩
  rw [hp] at hc
  have htr : ∀ c ∈ tr, c = APICall.getInstance id := by
    intro c hcc
    have := pollInstance_calls_get api id maxPolls 0 none (initResult cfg id) c
    rw [hp] at this
    exact this hcc
  cases o with
  | reachedRunning inst result =>
    simp only [List.mem_append] at hc
    rcases hc with hc | hc
    · exact absurd (htr _ hc) (by simp)
    · exact finishVerification_no_launch cfg api id inst result d hc
  | terminatedAbort result =>
    exact absurd (htr _ hc) (by simp)
  | timedOut last result =>
    exact absurd (htr _ hc) (by simp)

/-- C10: an instance list with no instance in a running, provisioning
or starting state (for example only stopped, terminating or terminated
instances) makes the existence check report "does not exist"
(`(false, nil)`), and `Provision` goes on to issue a `LaunchInstance`
request (once the availability domain resolves: either it is fixed, or
"auto" with a non-empty zone list). -/
theorem checkExisting_no_active_relaunch
    (cfg : AccountConfig) (api : API) (tracker : Tracker) (l : List Instance)
    (hList : api.listInstances cfg.compartmentOCID cfg.displayName = .ok l)
    (hNoActive : ∀ i ∈ l, isActiveState i.lifecycleState = false) :
    checkExisting cfg api = .ok false ∧
    (cfg.availabilityDomain ≠ "auto" →
      APICall.launchInstance (launchDetails cfg cfg.availabilityDomain) ∈
        (Provision cfg api tracker).calls) ∧
    (∀ z zs, cfg.availabilityDomain = "auto" →
      api.listAvailabilityDomains cfg.tenancyOCID = .ok (z :: zs) →
      APICall.launchInstance (launchDetails cfg z.name) ∈ (Provision cfg api tracker).calls) := by
  have hEx := checkExisting_eq_false cfg api l hList hNoActive
  refine ⟨hEx, ?_, ?_⟩
  · intro hAD
    cases he : api.launchInstance (launchDetails cfg cfg.availabilityDomain) with
    | error e =>
      cases e with
      | service code msg =>
        by_cases hcap : isCapacityError code msg = true
        · simp [Provision, hEx, hAD, he, hcap]
        · by_cases h429 : code = 429
          · subst h429
            simp [Provision, hEx, hAD, he, hcap]
          · simp [Provision, hEx, hAD, he, hcap, h429]
      | transport msg => simp [Provision, hEx, hAD, he]
    | ok inst => simp [Provision, hEx, hAD, he]
  · intro z zs hAD hADs
    cases he : api.launchInstance (launchDetails cfg z.name) with
    | error e =>
      cases e with
      | service code msg =>
        by_cases hcap : isCapacityError code msg = true
        · simp [Provision, hEx, hAD, hADs, he, hcap]
        · by_cases h429 : code = 429
          · subst h429
            simp [Provision, hEx, hAD, hADs, he, hcap]
          · simp [Provision, hEx, hAD, hADs, he, hcap, h429]
      | transport msg => simp [Provision, hEx, hAD, hADs, he]
    | ok inst => simp [Provision, hEx, hAD, hADs, he]

/-- Witness for C10: a stopped and a terminated instance carry the
configured display name, yet the check reports false and a launch
request is issued. -/
theorem checkExisting_no_active_relaunch_witness :
    checkExisting cfgStd apiInactive = .ok false ∧
    APICall.launchInstance (launchDetails cfgStd cfgStd.availabilityDomain) ∈
      (Provision cfgStd apiInactive trk0).calls := by
  have h := checkExisting_no_active_relaunch cfgStd apiInactive trk0
    [instStopped, instTerminated] rfl (by intro i hi; fin_cases hi <;> decide)
  exact ⟨h.1, h.2.1 (by decide)⟩

/-- C6: "auto" availability-domain resolution. With the sentinel "auto"
configured and no pre-existing instance, every `LaunchInstance` request
`Provision` issues carries the name of the first availability domain
returned by the zone query (the result is a pure function of the
configuration and API responses, hence identical across repeated calls
and in particular independent of the tracker argument, which the
theorem quantifies over); an empty zone list or a failing zone query
makes `Provision` return `(false, false, err≠nil)`. -/
theorem provision_auto_zone
    (cfg : AccountConfig) (api : API) (tracker : Tracker) (l : List Instance)
    (hauto : cfg.availabilityDomain = "auto")
    (hList : api.listInstances cfg.compartmentOCID cfg.displayName = .ok l)
    (hNoActive : ∀ i ∈ l, isActiveState i.lifecycleState = false) :
    (∀ z zs, api.listAvailabilityDomains cfg.tenancyOCID = .ok (z :: zs) →
      APICall.launchInstance (launchDetails cfg z.name) ∈ (Provision cfg api tracker).calls ∧
      (∀ d, APICall.launchInstance d ∈ (Provision cfg api tracker).calls →
        d.availabilityDomain = z.name)) ∧
    (api.listAvailabilityDomains cfg.tenancyOCID = .ok [] →
      (Provision cfg api tracker).success = false ∧
      (Provision cfg api tracker).retryable = false ∧
      (Provision cfg api tracker).err = some (.transport "no ADs found")) ∧
    (∀ e, api.listAvailabilityDomains cfg.tenancyOCID = .error e →
      (Provision cfg api tracker).success = false ∧
      (Provision cfg api tracker).retryable = false ∧
      (Provision cfg api tracker).err = some (wrapErr "failed to list ADs: " e)) := by
  have hEx := checkExisting_eq_false cfg api l hList hNoActive
  refine ⟨?_, ?_, ?_⟩
  · intro z zs hADs
    have hdet : ∀ d, d = launchDetails cfg z.name → d.availabilityDomain = z.name := by
      rintro d rfl
      rfl
    cases he : api.launchInstance (launchDetails cfg z.name) with
    | error e =>
      cases e with
      | service code msg =>
        by_cases hcap : isCapacityError code msg = true
        · constructor
          · simp [Provision, hEx, hauto, hADs, he, hcap]
          · intro d hd
            simp [Provision, hEx, hauto, hADs, he, hcap] at hd
            exact hdet d hd
        · by_cases h429 : code = 429
          · subst h429
            constructor
            · simp [Provision, hEx, hauto, hADs, he, hcap]
            · intro d hd
              simp [Provision, hEx, hauto, hADs, he, hcap] at hd
              exact hdet d hd
          · constructor
            · simp [Provision, hEx, hauto, hADs, he, hcap, h429]
            · intro d hd
              simp [Provision, hEx, hauto, hADs, he, hcap, h429] at hd
              exact hdet d hd
      | transport msg =>
        constructor
        · simp [Provision, hEx, hauto, hADs, he]
        · intro d hd
          simp [Provision, hEx, hauto, hADs, he] at hd
          exact hdet d hd
    | ok inst =>
      constructor
      · simp [Provision, hEx, hauto, hADs, he]
      · intro d hd
        simp [Provision, hEx, hauto, hADs, he] at hd
        rcases hd with hd | hd
        · exact hdet d hd
        · exact absurd hd (verifyInstance_no_launch cfg api (safeString inst.id) d)
  · intro hADs
    simp [Provision, hEx, hauto, hADs]
  · intro e hADs
    simp [Provision, hEx, hauto, hADs]

/-- Witness for C6: with the "auto" sentinel and zone list
`[AD-A, AD-B]`, the launch request carries "AD-A". -/
theorem provision_auto_zone_witness :
    APICall.launchInstance (launchDetails cfgAuto "AD-A") ∈
      (Provision cfgAuto apiBase trk0).calls ∧
    (∀ d, APICall.launchInstance d ∈ (Provision cfgAuto apiBase trk0).calls →
      d.availabilityDomain = "AD-A") := by
  have h := provision_auto_zone cfgAuto apiBase trk0 [] rfl rfl (by simp)
  exact h.1 ⟨"AD-A"⟩ [⟨"AD-B"⟩] rfl

/-- C5: a successful launch is a success regardless of verification.
With no existing active instance and a fixed availability domain, a
launch that returns an instance makes `Provision` return
`(true, false, nil)` and bump the success counter, whatever the
verification polls and VNIC queries do (the conclusion holds with the
`getInstance`/`listVnicAttachments`/`getVnic` responses unconstrained,
so in particular when `VerifyInstance` returns an error); and when the
polls observe the instance running with an actual OCPU count different
from the requested one, `VerifyInstance` reports `specsMismatch = true`
with exactly one OCPUs discrepancy message, plus one memory message
when the memory also differs. -/
theorem provision_success_lenient
    (cfg : AccountConfig) (api : API) (tracker : Tracker) (l : List Instance) (inst : Instance)
    (hList : api.listInstances cfg.compartmentOCID cfg.displayName = .ok l)
    (hNoActive : ∀ i ∈ l, isActiveState i.lifecycleState = false)
    (hAD : cfg.availabilityDomain ≠ "auto")
    (hLaunch : ∀ d, api.launchInstance d = .ok inst) :
    (Provision cfg api tracker).success = true ∧
    (Provision cfg api tracker).retryable = false ∧
    (Provision cfg api tracker).err = none ∧
    (Provision cfg api tracker).tracker = tracker.incSuccess ∧
    (∀ (inst2 : Instance) (a m : Rat),
      (∀ k, api.getInstance k (safeString inst.id) = .ok inst2) →
      inst2.lifecycleState = .running →
      inst2.shapeConfig = some { ocpus := some a, memoryInGBs := some m } →
      api.listVnicAttachments cfg.compartmentOCID (safeString inst.id) = .ok [] →
      a ≠ cfg.ocpus →
      (VerifyInstance cfg api (safeString inst.id)).result.specsMismatch = true ∧
      (VerifyInstance cfg api (safeString inst.id)).result.errors =
        (if m = cfg.memoryGB then [cpuMismatchMsg cfg.ocpus a]
         else [cpuMismatchMsg cfg.ocpus a, memMismatchMsg cfg.memoryGB m])) := by
  have hEx := checkExisting_eq_false cfg api l hList hNoActive
  refine ⟨?_, ?_, ?_, ?_, ?_⟩
  · simp [Provision, hEx, hAD, hLaunch]
  · simp [Provision, hEx, hAD, hLaunch]
  · simp [Provision, hEx, hAD, hLaunch]
  · simp [Provision, hEx, hAD, hLaunch]
  · intro inst2 a m hget hrun hsc hvnic hne
    have h0 := hget 0
    have hv : VerifyInstance cfg api (safeString inst.id) =
        { result := (finishVerification cfg api (safeString inst.id) inst2
            { initResult cfg (safeString inst.id) with
                state := inst2.lifecycleState.str,
                displayName := safeString inst2.displayName,
                shape := safeString inst2.shape }).1,
          err := none,
          calls := [APICall.getInstance (safeString inst.id)] ++
            (finishVerification cfg api (safeString inst.id) inst2
              { initResult cfg (safeString inst.id) with
                  state := inst2.lifecycleState.str,
                  displayName := safeString inst2.displayName,
                  shape := safeString inst2.shape }).2 } := by
      unfold VerifyInstance
      rw [show maxPolls = 29 + 1 from rfl, pollInstance]
      simp only [h0, hrun]
      simp
    rw [hv]
    by_cases hm : m = cfg.memoryGB
    · subst hm
      constructor
      · simp [finishVerification, hsc, hvnic, vnicLookup, setVerified, verifiedFlag, hne,
          initResult]
      · simp [finishVerification, hsc, hvnic, vnicLookup, setVerified, verifiedFlag, hne,
          initResult]
    · constructor
      · simp [finishVerification, hsc, hvnic, vnicLookup, setVerified, verifiedFlag, hne, hm,
          initResult]
      · simp [finishVerification, hsc, hvnic, vnicLookup, setVerified, verifiedFlag, hne, hm,
          initResult]

/-- Witness for C5: launch succeeds, the polls report a running instance
with 2 OCPUs against 4 requested (memory matching); `Provision` still
succeeds and records the success, and verification reports the single
OCPUs discrepancy. -/
theorem provision_success_lenient_witness :
    (Provision cfgStd apiMismatch trk0).success = true ∧
    (Provision cfgStd apiMismatch trk0).retryable = false ∧
    (Provision cfgStd apiMismatch trk0).err = none ∧
    (Provision cfgStd apiMismatch trk0).tracker = trk0.incSuccess ∧
    (VerifyInstance cfgStd apiMismatch (safeString instRunning.id)).result.specsMismatch = true ∧
    (VerifyInstance cfgStd apiMismatch (safeString instRunning.id)).result.errors =
      [cpuMismatchMsg cfgStd.ocpus 2] := by
  have h := provision_success_lenient cfgStd apiMismatch trk0 [] instRunning
    rfl (by simp) (by decide) (fun d => rfl)
  obtain ⟨h1, h2, h3, h4, h5⟩ := h
  have hv := h5 instMismatch 2 24 (fun k => rfl) rfl rfl rfl (by decide)
  refine ⟨h1, h2, h3, h4, hv.1, ?_⟩
  rw [hv.2]
  norm_num [cfgStd]

theorem finishVerification_verified_eq (cfg : AccountConfig) (api : API) (id : String)
    (inst : Instance) (r : VerifiedInstance) :
    (finishVerification cfg api id inst r).1.verified =
      verifiedFlag (finishVerification cfg api id inst r).1 := by
  unfold finishVerification
  simp only
  simp [setVerified, verifiedFlag]

theorem verifyInstance_ok_shape (cfg : AccountConfig) (api : API) (id : String)
    (hok : (VerifyInstance cfg api id).err = none) :
    ∃ inst result tr,
      pollInstance api id maxPolls 0 none (initResult cfg id) =
        (.reachedRunning inst result, tr) ∧
      (VerifyInstance cfg api id).result =
        (finishVerification cfg api id inst result).1 := by
  rcases hp : pollInstance api id maxPolls 0 none (initResult cfg id) with ⟨o, tr⟩
  cases o with
  | reachedRunning inst result =>
    refine ⟨inst, result, tr, rfl, ?_⟩
    unfold VerifyInstance
    rw [hp]
  | terminatedAbort result =>
    exfalso
    unfold VerifyInstance at hok
    rw [hp] at hok
    simp at hok
  | timedOut last result =>
    exfalso
    unfold VerifyInstance at hok
    rw [hp] at hok
    simp at hok

/-- C3 counterexample: a run in which the instance is running (state
"RUNNING") and a discrepancy message was recorded — so the claim says
the verified flag must be true — returns `verified = false`, because
the code additionally requires `!SpecsMismatch` in the verified
formula. -/
theorem verifyInstance_lenient_counterexample :
    (VerifyInstance cfgStd apiMismatch "inst-1").err = none ∧
    (VerifyInstance cfgStd apiMismatch "inst-1").result.state = "RUNNING" ∧
    (VerifyInstance cfgStd apiMismatch "inst-1").result.errors ≠ [] ∧
    (VerifyInstance cfgStd apiMismatch "inst-1").result.verified = false := by
  decide

/-- C3 (amended): for every `VerifyInstance` run that returns without
error (the instance reached the running state), the final verified flag
is true exactly when no discrepancy messages were recorded, or
discrepancy messages exist but the specs did not mismatch and the
lifecycle state is running — a recorded spec mismatch makes the
verified flag false even though the instance is running. -/
theorem verifyInstance_verified_iff (cfg : AccountConfig) (api : API) (id : String)
    (hok : (VerifyInstance cfg api id).err = none) :
    ((VerifyInstance cfg api id).result.verified = true ↔
      ((VerifyInstance cfg api id).result.errors = [] ∨
       ((VerifyInstance cfg api id).result.errors ≠ [] ∧
        (VerifyInstance cfg api id).result.specsMismatch = false ∧
        (VerifyInstance cfg api id).result.state = "RUNNING"))) := by
  obtain ⟨inst, result, tr, hp, hres⟩ := verifyInstance_ok_shape cfg api id hok
  rw [hres, finishVerification_verified_eq]
  generalize (finishVerification cfg api id inst result).1 = r
  simp only [verifiedFlag, Bool.or_eq_true, Bool.and_eq_true, decide_eq_true_eq,
    Bool.not_eq_true', List.length_eq_zero, List.length_pos]
  tauto

/-- Witness for the amended C3 on a clean run (no discrepancies,
verified true) of the baseline fixture API. -/
theorem verifyInstance_verified_iff_witness :
    ((VerifyInstance cfgStd apiBase "inst-1").result.verified = true ↔
      ((VerifyInstance cfgStd apiBase "inst-1").result.errors = [] ∨
       ((VerifyInstance cfgStd apiBase "inst-1").result.errors ≠ [] ∧
        (VerifyInstance cfgStd apiBase "inst-1").result.specsMismatch = false ∧
        (VerifyInstance cfgStd apiBase "inst-1").result.state = "RUNNING"))) :=
  verifyInstance_verified_iff cfgStd apiBase "inst-1" (by decide)

theorem continuesPolling_ok (i : Instance) (h : continuesPolling (.ok i) = true) :
    ¬ i.lifecycleState = LifecycleState.running ∧
    ¬ (i.lifecycleState = LifecycleState.terminated ∨
       i.lifecycleState = LifecycleState.terminating) := by
  simp [continuesPolling] at h
  tauto

theorem pollInstance_terminated_at (api : API) (id : String) (n : Nat) :
    ∀ (fuel k : Nat) (last : Option Instance) (result : VerifiedInstance) (i : Instance),
    n < fuel →
    (∀ j, j < n → continuesPolling (api.getInstance (k + j) id) = true) →
    api.getInstance (k + n) id = .ok i →
    (i.lifecycleState = LifecycleState.terminated ∨
     i.lifecycleState = LifecycleState.terminating) →
    ∃ r : VerifiedInstance,
      pollInstance api id fuel k last result =
        (.terminatedAbort r, List.replicate (n + 1) (APICall.getInstance id)) ∧
      r.verified = result.verified := by
  induction n with
  | zero =>
    intro fuel k last result i hfuel hbefore hget hstate
    cases fuel with
    | zero => exact absurd hfuel (lt_irrefl 0)
    | succ m =>
      rw [pollInstance]
      have hget0 : api.getInstance k id = .ok i := by simpa using hget
      simp only [hget0]
      have hnr : ¬ i.lifecycleState = LifecycleState.running := by
        rcases hstate with h | h <;> simp [h]
      rw [if_neg hnr, if_pos hstate]
      refine ⟨{ result with
          displayName := safeString i.displayName,
          state := i.lifecycleState.str,
          shape := safeString i.shape,
          errors := result.errors ++ ["Instance was terminated"] }, ?_, rfl⟩
      simp [List.replicate]
  | succ n ih =>
    intro fuel k last result i hfuel hbefore hget hstate
    cases fuel with
    | zero => exact absurd hfuel (by omega)
    | succ m =>
      have hm : n < m := by omega
      have h0 : continuesPolling (api.getInstance k id) = true := by
        simpa using hbefore 0 (by omega)
      have hbefore2 : ∀ j, j < n → continuesPolling (api.getInstance (k + 1 + j) id) = true := by
        intro j hj
        have h := hbefore (j + 1) (by omega)
        have harith : k + (j + 1) = k + 1 + j := by omega
        rwa [harith] at h
      have hget2 : api.getInstance (k + 1 + n) id = .ok i := by
        have harith : k + (n + 1) = k + 1 + n := by omega
        rwa [harith] at hget
      rw [pollInstance]
      cases hg : api.getInstance k id with
      | error e =>
        simp only [hg]
        obtain ⟨r, hr, hv⟩ := ih m (k + 1) last
          { result with errors := result.errors ++ [getInstanceFailedMsg e] } i
          hm hbefore2 hget2 hstate
        refine ⟨r, ?_, ?_⟩
        · rw [hr]
          simp [List.replicate_succ]
        · simpa using hv
      | ok inst0 =>
        rw [hg] at h0
        obtain ⟨hnr, hnt⟩ := continuesPolling_ok inst0 h0
        simp only [hg]
        rw [if_neg hnr, if_neg hnt]
        obtain ⟨r, hr, hv⟩ := ih m (k + 1) (some inst0)
          { result with
              state := inst0.lifecycleState.str,
              displayName := safeString inst0.displayName,
              shape := safeString inst0.shape } i
          hm hbefore2 hget2 hstate
        refine ⟨r, ?_, ?_⟩
        · rw [hr]
          simp [List.replicate_succ]
        · simpa using hv

/-- C8: termination aborts verification immediately. If the first k
polls all keep the loop going (errored polls or non-running,
non-terminal states) and the k-th poll (zero-based, within the
30-poll/5-minute ceiling) observes a terminated or terminating state,
`VerifyInstance` returns the "instance terminated unexpectedly" error
right there: it issues exactly k+1 `GetInstance` calls (no further
polls, no waiting for the ceiling) and the returned result is not
marked verified. -/
theorem verifyInstance_termination_abort
    (cfg : AccountConfig) (api : API) (id : String) (k : Nat) (i : Instance)
    (hk : k < maxPolls)
    (hbefore : ∀ j, j < k → continuesPolling (api.getInstance j id) = true)
    (hget : api.getInstance k id = .ok i)
    (hstate : i.lifecycleState = LifecycleState.terminated ∨
      i.lifecycleState = LifecycleState.terminating) :
    (VerifyInstance cfg api id).err = some terminatedErrText ∧
    (VerifyInstance cfg api id).result.verified = false ∧
    (VerifyInstance cfg api id).calls = List.replicate (k + 1) (APICall.getInstance id) := by
  have hbefore0 : ∀ j, j < k → continuesPolling (api.getInstance (0 + j) id) = true := by
    intro j hj
    simpa using hbefore j hj
  have hget0 : api.getInstance (0 + k) id = .ok i := by simpa using hget
  obtain ⟨r, hr, hv⟩ := pollInstance_terminated_at api id k maxPolls 0 none
    (initResult cfg id) i hk hbefore0 hget0 hstate
  have hvr : r.verified = false := by
    rw [hv]
    rfl
  unfold VerifyInstance
  rw [hr]
  exact ⟨rfl, hvr, rfl⟩

/-- Witness for C8: polls 0..2 observe a provisioning instance, poll 3 a
terminated one; verification aborts with the termination error after
exactly 4 `GetInstance` calls. -/
theorem verifyInstance_termination_abort_witness :
    (VerifyInstance cfgStd apiTermAt3 "inst-1").err = some terminatedErrText ∧
    (VerifyInstance cfgStd apiTermAt3 "inst-1").result.verified = false ∧
    (VerifyInstance cfgStd apiTermAt3 "inst-1").calls =
      List.replicate 4 (APICall.getInstance "inst-1") :=
  verifyInstance_termination_abort cfgStd apiTermAt3 "inst-1" 3 instTerminated
    (by decide) (by intro j hj; interval_cases j <;> decide) rfl (by decide)

theorem pollInstance_timeout_cont (api : API) (id : String) :
    ∀ (fuel k : Nat) (last : Option Instance) (result : VerifiedInstance),
    (∀ j, j < fuel → continuesPolling (api.getInstance (k + j) id) = true) →
    ∃ (l2 : Option Instance) (r2 : VerifiedInstance),
      pollInstance api id fuel k last result =
        (.timedOut l2 r2, List.replicate fuel (APICall.getInstance id)) ∧
      r2.verified = result.verified ∧
      ((∀ j, j < fuel → ∃ i, api.getInstance (k + j) id = .ok i) →
        r2.errors = result.errors) ∧
      ((∀ j, j < fuel → ∃ e, api.getInstance (k + j) id = .error e) →
        r2.state = result.state ∧ r2.displayName = result.displayName ∧
        r2.shape = result.shape) ∧
      (∀ n i, n < fuel → api.getInstance (k + n) id = .ok i →
        (∀ j, n < j → j < fuel → ∃ e, api.getInstance (k + j) id = .error e) →
        r2.state = i.lifecycleState.str ∧ r2.displayName = safeString i.displayName ∧
        r2.shape = safeString i.shape) := by
  intro fuel
  induction fuel with
  | zero =>
    intro k last result hcont
    refine ⟨last, result, by simp [pollInstance], rfl, fun _ => rfl,
      fun _ => ⟨rfl, rfl, rfl⟩, ?_⟩
    intro n i hn
    exact absurd hn (by omega)
  | succ m ih =>
    intro k last result hcont
    have h0 : continuesPolling (api.getInstance k id) = true := by
      simpa using hcont 0 (by omega)
    have hcont2 : ∀ j, j < m → continuesPolling (api.getInstance (k + 1 + j) id) = true := by
      intro j hj
      have h := hcont (j + 1) (by omega)
      have harith : k + (j + 1) = k + 1 + j := by omega
      rwa [harith] at h
    cases hg : api.getInstance k id with
    | error e =>
      obtain ⟨l2, r2, heq, hv, hallok, hallerr, hlastok⟩ := ih (k + 1) last
        { result with errors := result.errors ++ [getInstanceFailedMsg e] } hcont2
      refine ⟨l2, r2, ?_, by simpa using hv, ?_, ?_, ?_⟩
      · rw [pollInstance]
        simp only [hg]
        rw [heq]
        simp [List.replicate_succ]
      · intro hall
        obtain ⟨i0, hi0⟩ := hall 0 (by omega)
        rw [show k + 0 = k from by omega, hg] at hi0
        exact absurd hi0 (by simp)
      · intro herr
        have herr2 : ∀ j, j < m → ∃ e2, api.getInstance (k + 1 + j) id = .error e2 := by
          intro j hj
          have h := herr (j + 1) (by omega)
          have harith : k + (j + 1) = k + 1 + j := by omega
          rwa [harith] at h
        simpa using hallerr herr2
      · intro n i hn hok hafter
        cases n with
        | zero =>
          rw [show k + 0 = k from by omega, hg] at hok
          exact absurd hok (by simp)
        | succ n2 =>
          have hok2 : api.getInstance (k + 1 + n2) id = .ok i := by
            have harith : k + (n2 + 1) = k + 1 + n2 := by omega
            rwa [harith] at hok
          have hafter2 : ∀ j, n2 < j → j < m →
              ∃ e2, api.getInstance (k + 1 + j) id = .error e2 := by
            intro j h1 h2
            have h := hafter (j + 1) (by omega) (by omega)
            have harith : k + (j + 1) = k + 1 + j := by omega
            rwa [harith] at h
          exact hlastok n2 i (by omega) hok2 hafter2
    | ok inst0 =>
      rw [hg] at h0
      obtain ⟨hnr, hnt⟩ := continuesPolling_ok inst0 h0
      obtain ⟨l2, r2, heq, hv, hallok, hallerr, hlastok⟩ := ih (k + 1) (some inst0)
        { result with
            state := inst0.lifecycleState.str,
            displayName := safeString inst0.displayName,
            shape := safeString inst0.shape } hcont2
      refine ⟨l2, r2, ?_, by simpa using hv, ?_, ?_, ?_⟩
      · rw [pollInstance]
        simp only [hg]
        rw [if_neg hnr, if_neg hnt, heq]
        simp [List.replicate_succ]
      · intro hall
        have hall2 : ∀ j, j < m → ∃ i2, api.getInstance (k + 1 + j) id = .ok i2 := by
          intro j hj
          have h := hall (j + 1) (by omega)
          have harith : k + (j + 1) = k + 1 + j := by omega
          rwa [harith] at h
        simpa using hallok hall2
      · intro herr
        obtain ⟨e0, he0⟩ := herr 0 (by omega)
        rw [show k + 0 = k from by omega, hg] at he0
        exact absurd he0 (by simp)
      · intro n i hn hok hafter
        cases n with
        | zero =>
          rw [show k + 0 = k from by omega, hg] at hok
          have hii : inst0 = i := by simpa using hok
          subst hii
          have herr2 : ∀ j, j < m → ∃ e2, api.getInstance (k + 1 + j) id = .error e2 := by
            intro j hj
            have h := hafter (j + 1) (by omega) (by omega)
            have harith : k + (j + 1) = k + 1 + j := by omega
            rwa [harith] at h
          simpa using hallerr herr2
        | succ n2 =>
          have hok2 : api.getInstance (k + 1 + n2) id = .ok i := by
            have harith : k + (n2 + 1) = k + 1 + n2 := by omega
            rwa [harith] at hok
          have hafter2 : ∀ j, n2 < j → j < m →
              ∃ e2, api.getInstance (k + 1 + j) id = .error e2 := by
            intro j h1 h2
            have h := hafter (j + 1) (by omega) (by omega)
            have harith : k + (j + 1) = k + 1 + j := by omega
            rwa [harith] at h
          exact hlastok n2 i (by omega) hok2 hafter2

/-- C9: timeout with a partial result, over every polling sequence that
exhausts the ceiling. If each of the 30 polls under the 5-minute
ceiling keeps the loop going (an errored `GetInstance`, or an instance
neither running nor terminated/terminating), `VerifyInstance` returns
the verification-timeout error and a non-nil partial result: it is not
marked verified, its discrepancy list ends with the recorded timeout
message, exactly 30 `GetInstance` calls were issued, and its state,
display name and shape hold the values of the last successful
observation before the ceiling — the last poll's instance when that
poll succeeded and only errored polls follow, the Go zero values when
every poll errored, and the requested-instance fields are untouched by
the errored polls in between. -/
theorem verifyInstance_timeout_partial
    (cfg : AccountConfig) (api : API) (id : String)
    (hcont : ∀ j, j < maxPolls → continuesPolling (api.getInstance j id) = true) :
    (VerifyInstance cfg api id).err = some timeoutErrText ∧
    (VerifyInstance cfg api id).result.verified = false ∧
    (VerifyInstance cfg api id).result.errors.getLast? =
      some "Timeout waiting for RUNNING state" ∧
    (VerifyInstance cfg api id).calls = List.replicate maxPolls (APICall.getInstance id) ∧
    ((∀ j, j < maxPolls → ∃ i, api.getInstance j id = .ok i) →
      (VerifyInstance cfg api id).result.errors = ["Timeout waiting for RUNNING state"]) ∧
    (∀ n i, n < maxPolls → api.getInstance n id = .ok i →
      (∀ j, n < j → j < maxPolls → ∃ e, api.getInstance j id = .error e) →
      (VerifyInstance cfg api id).result.state = i.lifecycleState.str ∧
      (VerifyInstance cfg api id).result.displayName = safeString i.displayName ∧
      (VerifyInstance cfg api id).result.shape = safeString i.shape) ∧
    ((∀ j, j < maxPolls → ∃ e, api.getInstance j id = .error e) →
      (VerifyInstance cfg api id).result.state = "" ∧
      (VerifyInstance cfg api id).result.displayName = "" ∧
      (VerifyInstance cfg api id).result.shape = "") := by
  have hcont0 : ∀ j, j < maxPolls → continuesPolling (api.getInstance (0 + j) id) = true := by
    intro j hj
    simpa using hcont j hj
  obtain ⟨l2, r2, heq, hv, hallok, hallerr, hlastok⟩ :=
    pollInstance_timeout_cont api id maxPolls 0 none (initResult cfg id) hcont0
  unfold VerifyInstance
  rw [heq]
  refine ⟨rfl, ?_, ?_, rfl, ?_, ?_, ?_⟩
  · simpa [initResult] using hv
  · simp
  · intro hall
    have hall0 : ∀ j, j < maxPolls → ∃ i, api.getInstance (0 + j) id = .ok i := by
      intro j hj
      simpa using hall j hj
    have h := hallok hall0
    simp [h, initResult]
  · intro n i hn hok hafter
    have hok0 : api.getInstance (0 + n) id = .ok i := by simpa using hok
    have hafter0 : ∀ j, n < j → j < maxPolls → ∃ e, api.getInstance (0 + j) id = .error e := by
      intro j h1 h2
      simpa using hafter j h1 h2
    simpa using hlastok n i hn hok0 hafter0
  · intro herr
    have herr0 : ∀ j, j < maxPolls → ∃ e, api.getInstance (0 + j) id = .error e := by
      intro j hj
      simpa using herr j hj
    simpa [initResult] using hallerr herr0

/-- Witness for C9: polls 0..14 observe a provisioning instance, polls
15..29 fail with a transport error; the run times out after all 30
polls and the partial result carries the poll-14 observation plus the
timeout message at the end of the discrepancy list. -/
theorem verifyInstance_timeout_partial_witness :
    (VerifyInstance cfgStd apiFlaky "inst-1").err = some timeoutErrText ∧
    (VerifyInstance cfgStd apiFlaky "inst-1").result.verified = false ∧
    (VerifyInstance cfgStd apiFlaky "inst-1").result.errors.getLast? =
      some "Timeout waiting for RUNNING state" ∧
    (VerifyInstance cfgStd apiFlaky "inst-1").calls =
      List.replicate maxPolls (APICall.getInstance "inst-1") ∧
    (VerifyInstance cfgStd apiFlaky "inst-1").result.state = "PROVISIONING" ∧
    (VerifyInstance cfgStd apiFlaky "inst-1").result.displayName = "oci-arm" ∧
    (VerifyInstance cfgStd apiFlaky "inst-1").result.shape = "VM.Standard.A1.Flex" := by
  have h := verifyInstance_timeout_partial cfgStd apiFlaky "inst-1"
    (by
      intro j hj
      have hj30 : j < 30 := hj
      interval_cases j <;> decide)
  obtain ⟨h1, h2, h3, h4, h5, h6, h7⟩ := h
  have hfields := h6 14 instProvisioning (by decide) rfl
    (by
      intro j hj1 hj2
      refine ⟨.transport "connection reset", ?_⟩
      have hge : ¬ j < 15 := by omega
      simp [apiFlaky, apiBase, hge])
  refine ⟨h1, h2, h3, h4, ?_, ?_, ?_⟩
  · rw [hfields.1]
    rfl
  · rw [hfields.2.1]
    rfl
  · rw [hfields.2.2]
    rfl

theorem provision_calls_listInstances (cfg : AccountConfig) (api : API) (t : Tracker) :
    APICall.listInstances cfg.compartmentOCID cfg.displayName ∈ (Provision cfg api t).calls := by
  unfold Provision
  cases hEx : checkExisting cfg api with
  | error e => simp
  | ok b =>
    cases b with
    | true => simp
    | false =>
      by_cases hauto : cfg.availabilityDomain = "auto"
      · simp only [if_pos hauto]
        cases hADs : api.listAvailabilityDomains cfg.tenancyOCID with
        | error e => simp
        | ok zs =>
          cases zs with
          | nil => simp
          | cons z rest =>
            simp only
            cases hl : api.launchInstance (launchDetails cfg z.name) with
            | error e =>
              cases e with
              | service code msg =>
                by_cases hcap : isCapacityError code msg = true
                · simp [hcap]
                · by_cases h429 : code = 429
                  · subst h429
                    simp [hcap]
                  · simp [hcap, h429]
              | transport m => simp
            | ok inst => simp
      · simp only [if_neg hauto]
        cases hl : api.launchInstance (launchDetails cfg cfg.availabilityDomain) with
        | error e =>
          cases e with
          | service code msg =>
            by_cases hcap : isCapacityError code msg = true
            · simp [hcap]
            · by_cases h429 : code = 429
              · subst h429
                simp [hcap]
              · simp [hcap, h429]
          | transport m => simp
        | ok inst => simp

theorem runCycleAux_trace_mono :
    ∀ (ws : List Worker) (p : List String) (t : Tracker) (tr : List (String × APICall))
      (x : String × APICall), x ∈ tr → x ∈ (runCycleAux ws p t tr).trace := by
  intro ws
  induction ws with
  | nil =>
    intro p t tr x hx
    simpa [runCycleAux] using hx
  | cons w rest ih =>
    intro p t tr x hx
    rw [runCycleAux]
    split
    · exact ih _ _ _ x hx
    · exact ih _ _ _ x (List.mem_append_left _ hx)

theorem runCycleAux_attempts (w : Worker) :
    ∀ (ws : List Worker) (p : List String) (t : Tracker) (tr : List (String × APICall)),
    w ∈ ws →
    (ws.map Worker.accountName).Nodup →
    w.accountName ∉ p →
    (w.accountName, APICall.listInstances w.cfg.compartmentOCID w.cfg.displayName) ∈
      (runCycleAux ws p t tr).trace := by
  intro ws
  induction ws with
  | nil =>
    intro p t tr hw
    exact absurd hw (List.not_mem_nil w)
  | cons v rest ih =>
    intro p t tr hw hnodup hnp
    rw [runCycleAux]
    rcases List.mem_cons.1 hw with rfl | hw2
    · have hc : p.contains w.accountName = false := by simp [hnp]
      simp only [hc, Bool.false_eq_true, if_false]
      apply runCycleAux_trace_mono
      apply List.mem_append_right
      exact List.mem_map_of_mem _ (provision_calls_listInstances w.cfg w.api t)
    · have hvw : v.accountName ≠ w.accountName := by
        have hnotin : v.accountName ∉ rest.map Worker.accountName :=
          (List.nodup_cons.1 hnodup).1
        intro h
        exact hnotin (h ▸ List.mem_map_of_mem Worker.accountName hw2)
      have hnodup2 : (rest.map Worker.accountName).Nodup := (List.nodup_cons.1 hnodup).2
      split
      · exact ih p t tr hw2 hnodup2 hnp
      · apply ih _ _ _ hw2 hnodup2
        by_cases hs : (Provision v.cfg v.api t).success = true
        · simp only [hs, if_true]
          intro hmem
          rcases List.mem_append.1 hmem with h | h
          · exact hnp h
          · simp at h
            exact hvw h.symm
        · simp only [hs, if_false]
          exact hnp

/-- C4: cycle isolation. `RunCycle` is a total function (it has no
error outcome: a failing `Provision` is only logged), and every worker
whose alias is not yet provisioned is attempted regardless of what the
accounts before it did — in particular its `ListInstances` existence
check appears in the cycle trace even when an earlier account's
`Provision` failed with a non-retryable error. -/
theorem runCycle_isolation
    (workers : List Worker) (provisioned : List String) (tracker : Tracker) (w : Worker)
    (hw : w ∈ workers)
    (hnodup : (workers.map Worker.accountName).Nodup)
    (hnp : w.accountName ∉ provisioned) :
    (w.accountName, APICall.listInstances w.cfg.compartmentOCID w.cfg.displayName) ∈
      (RunCycle workers provisioned tracker).trace :=
  runCycleAux_attempts w workers provisioned tracker.incCycle [] hw hnodup hnp

/-- Witness for C4: a three-account cycle in which account 2's launch
fails hard with a non-retryable 400 error; account 3 is still attempted
(its existence check is in the trace). -/
theorem runCycle_isolation_witness :
    (Provision workerB.cfg workerB.api trk0).err = some (.service 400 "Invalid image") ∧
    (Provision workerB.cfg workerB.api trk0).retryable = false ∧
    ("acct3", APICall.listInstances cfgStd.compartmentOCID cfgStd.displayName) ∈
      (RunCycle [workerA, workerB, workerC] [] trk0).trace := by
  refine ⟨?_, ?_, ?_⟩
  · decide
  · decide
  · exact runCycle_isolation [workerA, workerB, workerC] [] trk0 workerC
      (List.mem_cons_of_mem _ (List.mem_cons_of_mem _ (List.mem_cons_self _ _)))
      (by decide) (by simp)

/-- C7: skip-on-provisioned. If an account alias is in the
ProvisionedSet when `RunCycle` starts (hence still there at that
account's turn, since the set only grows), the cycle issues no API call
tagged with that alias at all — neither `ListInstances` nor
`LaunchInstance` — because its `Provision` is never invoked. -/
theorem runCycle_skip_provisioned
    (workers : List Worker) (provisioned : List String) (tracker : Tracker) (a : String)
    (ha : a ∈ provisioned) :
    ∀ c, (a, c) ∉ (RunCycle workers provisioned tracker).trace := by
  have haux : ∀ (ws : List Worker) (p : List String) (t : Tracker)
      (tr : List (String × APICall)),
      a ∈ p → (∀ c, (a, c) ∉ tr) →
      ∀ c, (a, c) ∉ (runCycleAux ws p t tr).trace := by
    intro ws
    induction ws with
    | nil =>
      intro p t tr hp htr c
      simpa [runCycleAux] using htr c
    | cons v rest ih =>
      intro p t tr hp htr c
      rw [runCycleAux]
      split
      · exact ih p t tr hp htr c
      · rename_i hcontains
        have hva : v.accountName ≠ a := by
          intro h
          rw [h] at hcontains
          simp [hp] at hcontains
        have htr2 : ∀ c2, (a, c2) ∉
            tr ++ (Provision v.cfg v.api t).calls.map fun c2 => (v.accountName, c2) := by
          intro c2 hc2
          rcases List.mem_append.1 hc2 with h | h
          · exact htr c2 h
          · obtain ⟨c3, hc3, heq⟩ := List.mem_map.1 h
            exact hva (congrArg Prod.fst heq)
        by_cases hs : (Provision v.cfg v.api t).success = true
        · simp only [hs, if_true]
          exact ih _ _ _ (List.mem_append_left _ hp) htr2 c
        · simp only [hs, if_false]
          exact ih _ _ _ hp htr2 c
  exact haux workers provisioned tracker.incCycle [] ha (by simp)

/-- Witness for C7: with "acct1" already provisioned, a cycle over the
one-account worker list issues neither the existence check nor a launch
request tagged "acct1". -/
theorem runCycle_skip_provisioned_witness :
    ("acct1", APICall.listInstances cfgStd.compartmentOCID cfgStd.displayName) ∉
      (RunCycle [workerA] ["acct1"] trk0).trace ∧
    ("acct1", APICall.launchInstance (launchDetails cfgStd cfgStd.availabilityDomain)) ∉
      (RunCycle [workerA] ["acct1"] trk0).trace :=
  ⟨runCycle_skip_provisioned [workerA] ["acct1"] trk0 "acct1" (by simp) _,
   runCycle_skip_provisioned [workerA] ["acct1"] trk0 "acct1" (by simp) _⟩

end OCIProv
